import Mathlib

/-!
Shallow embedding of the bonding-curve pricing engine
(`src/server/raydium-launchlab.ts`), the on-chain trade verifier
(`src/server/launchlab.ts`), and the buy/sell confirmation route handlers
(`src/server/routes.ts`) of the token-launch application, together with
proofs and refutations of the specification's claims about them.

Numeric model: the TypeScript code computes on IEEE doubles; we embed the
curve mathematics over `ℝ` (the idealized real-arithmetic reading, since the
exponential and logarithmic curves use `Math.pow`/`Math.log`) and the
verifier / ledger arithmetic over `ℚ` (only field operations and
comparisons occur there, so the rational embedding is exact and decidable).
-/

namespace RaydiumLaunchlab

/-- Curve type enum: `'linear' | 'exponential' | 'logarithmic'`. -/
inductive CurveType where
  | linear
  | exponential
  | logarithmic
deriving DecidableEq, Repr

/-- `PLATFORM_FEE_RATE = 0.0025` (`raydium-launchlab.ts:23`). -/
def PLATFORM_FEE_RATE : ℝ := 0.0025

/-- Result record of `calculateBuyPrice`. -/
structure BuyResult where
  tokensOut : ℝ
  priceImpact : ℝ
  fee : ℝ

/-- Result record of `calculateSellPrice`. -/
structure SellResult where
  solOut : ℝ
  priceImpact : ℝ
  fee : ℝ

/-- Result record of `getBuyQuote` / `getSellQuote`. -/
structure QuoteResult where
  amountIn : ℝ
  amountOut : ℝ
  fee : ℝ
  priceImpact : ℝ
  currentPrice : ℝ
  newPrice : ℝ

/-- `calculateBuyPrice` (`raydium-launchlab.ts:172`).  `Math.floor` is
`Int.floor`; `Math.min` is `min`; `Math.pow` is real power; `Math.log` is
the natural logarithm. -/
noncomputable def calculateBuyPrice (currentRaised solAmount : ℝ)
    (curveType : CurveType) (totalSupply : ℝ := 1000000000)
    (targetRaised : ℝ := 85) : BuyResult :=
  let fee := solAmount * PLATFORM_FEE_RATE
  let netSolAmount := solAmount - fee
  let progress := currentRaised / targetRaised
  let tokensAvailable := totalSupply * 0.8
  let tokensSold := tokensAvailable * progress
  let tokensRemaining := tokensAvailable - tokensSold
  let initialPrice := targetRaised / tokensAvailable
  let body : ℝ × ℝ :=
    match curveType with
    | .linear =>
      let slope := initialPrice * 0.5
      let currentPrice := initialPrice + slope * progress
      let endProgress := (currentRaised + netSolAmount) / targetRaised
      let endPrice := initialPrice + slope * endProgress
      let avgPrice := (currentPrice + endPrice) / 2
      (netSolAmount / avgPrice, (endPrice - currentPrice) / currentPrice * 100)
    | .exponential =>
      let rate : ℝ := 2
      let currentPrice := initialPrice * (1 + rate) ^ progress
      let endProgress := (currentRaised + netSolAmount) / targetRaised
      let endPrice := initialPrice * (1 + rate) ^ endProgress
      (netSolAmount / ((currentPrice + endPrice) / 2),
       (endPrice - currentPrice) / currentPrice * 100)
    | .logarithmic =>
      let multiplier : ℝ := 10
      let currentPrice := initialPrice * (1 + multiplier * Real.log (1 + progress))
      let endProgress := (currentRaised + netSolAmount) / targetRaised
      let endPrice := initialPrice * (1 + multiplier * Real.log (1 + endProgress))
      (netSolAmount / ((currentPrice + endPrice) / 2),
       (endPrice - currentPrice) / currentPrice * 100)
  let tokensOut := min body.1 tokensRemaining
  { tokensOut := (⌊tokensOut⌋ : ℝ)
    priceImpact := min body.2 100
    fee := fee }

/-- `calculateSellPrice` (`raydium-launchlab.ts:236`). -/
noncomputable def calculateSellPrice (currentRaised tokenAmount : ℝ)
    (curveType : CurveType) (totalSupply : ℝ := 1000000000)
    (targetRaised : ℝ := 85) : SellResult :=
  let progress := currentRaised / targetRaised
  let tokensAvailable := totalSupply * 0.8
  let tokensSold := tokensAvailable * progress
  let initialPrice := targetRaised / tokensAvailable
  let body : ℝ × ℝ :=
    match curveType with
    | .linear =>
      let slope := initialPrice * 0.5
      let currentPrice := initialPrice + slope * progress
      let tokensSoldAfter := tokensSold - tokenAmount
      let endProgress := tokensSoldAfter / tokensAvailable
      let endPrice := initialPrice + slope * endProgress
      let avgPrice := (currentPrice + endPrice) / 2
      (tokenAmount * avgPrice, (currentPrice - endPrice) / currentPrice * 100)
    | .exponential =>
      let rate : ℝ := 2
      let currentPrice := initialPrice * (1 + rate) ^ progress
      let tokensSoldAfter := tokensSold - tokenAmount
      let endProgress := tokensSoldAfter / tokensAvailable
      let endPrice := initialPrice * (1 + rate) ^ endProgress
      (tokenAmount * ((currentPrice + endPrice) / 2),
       (currentPrice - endPrice) / currentPrice * 100)
    | .logarithmic =>
      let multiplier : ℝ := 10
      let currentPrice := initialPrice * (1 + multiplier * Real.log (1 + progress))
      let tokensSoldAfter := tokensSold - tokenAmount
      let endProgress := tokensSoldAfter / tokensAvailable
      let endPrice := initialPrice * (1 + multiplier * Real.log (1 + endProgress))
      (tokenAmount * ((currentPrice + endPrice) / 2),
       (currentPrice - endPrice) / currentPrice * 100)
  let grossSolOut := min body.1 currentRaised
  let fee := grossSolOut * PLATFORM_FEE_RATE
  let solOut := grossSolOut - fee
  { solOut := max solOut 0
    priceImpact := min |body.2| 100
    fee := fee }

/-- `getCurrentPrice` (`raydium-launchlab.ts:303`). -/
noncomputable def getCurrentPrice (currentRaised : ℝ) (curveType : CurveType)
    (totalSupply : ℝ := 1000000000) (targetRaised : ℝ := 85) : ℝ :=
  let progress := currentRaised / targetRaised
  let tokensAvailable := totalSupply * 0.8
  let initialPrice := targetRaised / tokensAvailable
  match curveType with
  | .linear =>
    let slope := initialPrice * 0.5
    initialPrice + slope * progress
  | .exponential =>
    let rate : ℝ := 2
    initialPrice * (1 + rate) ^ progress
  | .logarithmic =>
    let multiplier : ℝ := 10
    initialPrice * (1 + multiplier * Real.log (1 + progress))

/-- `getBuyQuote` (`raydium-launchlab.ts:355`). -/
noncomputable def getBuyQuote (solAmount currentRaised : ℝ)
    (curveType : CurveType) (totalSupply : ℝ := 1000000000)
    (targetRaised : ℝ := 85) : QuoteResult :=
  let result := calculateBuyPrice currentRaised solAmount curveType totalSupply targetRaised
  let currentPrice := getCurrentPrice currentRaised curveType totalSupply targetRaised
  let newRaised := currentRaised + solAmount - result.fee
  let newPrice := getCurrentPrice newRaised curveType totalSupply targetRaised
  { amountIn := solAmount
    amountOut := result.tokensOut
    fee := result.fee
    priceImpact := result.priceImpact
    currentPrice := currentPrice
    newPrice := newPrice }

/-- `getSellQuote` (`raydium-launchlab.ts:377`). -/
noncomputable def getSellQuote (tokenAmount currentRaised : ℝ)
    (curveType : CurveType) (totalSupply : ℝ := 1000000000)
    (targetRaised : ℝ := 85) : QuoteResult :=
  let result := calculateSellPrice currentRaised tokenAmount curveType totalSupply targetRaised
  let currentPrice := getCurrentPrice currentRaised curveType totalSupply targetRaised
  let newRaised := currentRaised - result.solOut - result.fee
  let newPrice := getCurrentPrice (max 0 newRaised) curveType totalSupply targetRaised
  { amountIn := tokenAmount
    amountOut := result.solOut
    fee := result.fee
    priceImpact := result.priceImpact
    currentPrice := currentPrice
    newPrice := newPrice }

end RaydiumLaunchlab

namespace Launchlab

/-- One entry of `tx.transaction.message.accountKeys`. -/
structure AccountKey where
  pubkey : String
  signer : Bool
deriving DecidableEq, Repr

/-- The `info` object of a parsed SPL-token instruction (the fields the
verifier reads: `mint`, `source`, `destination`, `account`). -/
structure ParsedInfo where
  mint : Option String := none
  source : Option String := none
  destination : Option String := none
  account : Option String := none
deriving DecidableEq, Repr

/-- A parsed instruction: `program`, and `parsed = (type, info)` when the
RPC node could parse it. -/
structure Instruction where
  program : String
  parsed : Option (String × ParsedInfo) := none
deriving DecidableEq, Repr

/-- One entry of `meta.preTokenBalances` / `meta.postTokenBalances`;
`uiAmount` is `none` when `uiTokenAmount.uiAmount` is null (the code then
parses `'0'`). -/
structure TokenBalance where
  accountIndex : Nat
  uiAmount : Option ℚ
deriving DecidableEq, Repr

/-- The slice of a `ParsedTransactionWithMeta` that `verifyTradeTransaction`
reads.  `err` is whether `tx.meta.err` is set; `innerInstructions` is the
list of inner-instruction groups; `preBalances`/`postBalances` are lamport
balances indexed like `accountKeys`. -/
structure ParsedTx where
  err : Bool
  accountKeys : List AccountKey
  instructions : List Instruction
  innerInstructions : List (List Instruction)
  preTokenBalances : List TokenBalance
  postTokenBalances : List TokenBalance
  preBalances : List ℤ
  postBalances : List ℤ
deriving DecidableEq, Repr

/-- `TradeVerification` (`launchlab.ts:307`). -/
structure TradeVerification where
  valid : Bool
  solAmount : Option ℚ := none
  walletAddress : Option String := none
  mintAddress : Option String := none
  error : Option String := none
deriving DecidableEq, Repr

/-- `LAMPORTS_PER_SOL` from `@solana/web3.js`. -/
def LAMPORTS_PER_SOL : ℚ := 1000000000

/-- Whether an instruction is a parsed SPL-token balance-changing operation
(`launchlab.ts:378-384`): `program === 'spl-token'`, parsed, and type in
`['transfer', 'transferChecked', 'mintTo', 'burn', 'burnChecked']`. -/
def isTokenTransferIx (ix : Instruction) : Bool :=
  ix.program == "spl-token" &&
    match ix.parsed with
    | none => false
    | some (typ, _) =>
      typ == "transfer" || typ == "transferChecked" || typ == "mintTo" ||
        typ == "burn" || typ == "burnChecked"

/-- Whether a token instruction verifies the expected mint
(`launchlab.ts:386-403`): either `info.mint === expectedMint`, or one of
`info.source`/`info.destination`/`info.account` equals the actor's
associated token account for the mint. -/
def ixVerifiesMint (expectedMint expectedAta : String) (ix : Instruction) : Bool :=
  match ix.parsed with
  | none => false
  | some (_, info) =>
    info.mint == some expectedMint || info.source == some expectedAta ||
      info.destination == some expectedAta || info.account == some expectedAta

/-- All instructions the verifier scans: top-level then flattened inner
(`launchlab.ts:363-368`). -/
def allInstructions (tx : ParsedTx) : List Instruction :=
  tx.instructions ++ tx.innerInstructions.flatten

/-- The token balance the code reads for account index `i`:
`parseFloat(entry?.uiTokenAmount?.uiAmount?.toString() || '0')`
(`launchlab.ts:432-433`). -/
def tokenBalanceAt (balances : List TokenBalance) (i : Nat) : ℚ :=
  match balances.find? (fun b => b.accountIndex == i) with
  | none => 0
  | some b => b.uiAmount.getD 0

/-- The actor's ATA token-balance delta read by the direction check
(`launchlab.ts:430-434`). -/
def tokenChangeAt (tx : ParsedTx) (i : Nat) : ℚ :=
  tokenBalanceAt tx.postTokenBalances i - tokenBalanceAt tx.preTokenBalances i

/-- The direction check (`launchlab.ts:425-445`): performed only when the
actor's ATA appears among the account keys; returns the error message it
fails with, if any. -/
def directionError (tx : ParsedTx) (expectedAta : String) (isBuy : Bool) :
    Option String :=
  match tx.accountKeys.findIdx? (fun k => k.pubkey == expectedAta) with
  | none => none
  | some ataIndex =>
    let tokenChange := tokenChangeAt tx ataIndex
    if isBuy ∧ tokenChange ≤ 0 then
      some "Expected token balance increase for buy, but got decrease or no change"
    else if (¬ isBuy) ∧ tokenChange ≥ 0 then
      some "Expected token balance decrease for sell, but got increase or no change"
    else none

/-- `array[i] || 0` on the lamport balance arrays (`launchlab.ts:456-457`):
out-of-range yields `undefined`, hence `0`; a stored `0` is falsy and also
yields `0`. -/
def lamportsAt (balances : List ℤ) (i : Nat) : ℤ :=
  (balances.getD i 0)

/-- The chain-observed signed SOL amount in the direction implied by the
trade (`launchlab.ts:455-462`): for a buy the wallet pays, so the amount is
the negated balance change. -/
def actualSolAmountOf (tx : ParsedTx) (walletIndex : Nat) (isBuy : Bool) : ℚ :=
  let preBal := lamportsAt tx.preBalances walletIndex
  let postBal := lamportsAt tx.postBalances walletIndex
  let balanceChange : ℚ := ((postBal : ℚ) - (preBal : ℚ)) / LAMPORTS_PER_SOL
  if isBuy then -balanceChange else balanceChange

/-- `verifyTradeTransaction` (`launchlab.ts:333-485`).  `ataOf mint wallet`
stands for `getAssociatedTokenAddressSync(mint, wallet)` (a deterministic
address derivation); `txOpt` is the result of
`connection.getParsedTransaction(signature)`. -/
def verifyTradeTransaction (ataOf : String → String → String)
    (txOpt : Option ParsedTx) (expectedWallet expectedMint : String)
    (expectedSolAmount : ℚ) (isBuy : Bool) : TradeVerification :=
  match txOpt with
  | none => { valid := false, error := some "Transaction not found" }
  | some tx =>
    if tx.err then
      { valid := false, error := some "Transaction failed on-chain" }
    else
      let accountKeys := tx.accountKeys
      let walletIsSigner :=
        accountKeys.any (fun k => k.pubkey == expectedWallet && k.signer)
      if ¬ walletIsSigner then
        { valid := false, error := some "Wallet is not a signer of the transaction" }
      else
        let expectedAta := ataOf expectedMint expectedWallet
        let tokenTransferFound := (allInstructions tx).any isTokenTransferIx
        let mintVerified := (allInstructions tx).any
          (fun ix => isTokenTransferIx ix && ixVerifiesMint expectedMint expectedAta ix)
        if ¬ tokenTransferFound then
          { valid := false, error := some "No token transfer found in transaction" }
        else if ¬ mintVerified then
          { valid := false, error := some "Token transfer does not involve the expected mint" }
        else
          match directionError tx expectedAta isBuy with
          | some e => { valid := false, error := some e }
          | none =>
            match accountKeys.findIdx? (fun k => k.pubkey == expectedWallet) with
            | none =>
              { valid := false, error := some "Wallet not found in transaction accounts" }
            | some walletIndex =>
              let actualSolAmount := actualSolAmountOf tx walletIndex isBuy
              let tolerance := expectedSolAmount * 0.05 + 0.001
              let amountDiff := |actualSolAmount - expectedSolAmount|
              if amountDiff > tolerance then
                { valid := false, error := some "SOL amount mismatch" }
              else
                { valid := true
                  solAmount := some actualSolAmount
                  walletAddress := some expectedWallet
                  mintAddress := some expectedMint }

end Launchlab

namespace Routes

open Launchlab

/-- Launch status values stored in the `status` column
(`shared/schema.ts`): `'active'`, `'graduated'`, `'failed'`. -/
inductive LaunchStatus where
  | active
  | graduated
  | failed
deriving DecidableEq, Repr

/-- The slice of a `Launch` row the confirm handlers read and write
(`shared/schema.ts`, `routes.ts:882-1012`).  `currentRaised` and
`fundraisingTarget` are stored as text and `parseFloat`-ed by the handler;
we keep them as the parsed numbers. -/
structure Launch where
  mintAddress : String
  currentRaised : ℚ
  fundraisingTarget : ℚ
  status : LaunchStatus
  holders : ℤ
  volume24h : ℚ
deriving DecidableEq, Repr

/-- Body of `POST /api/launches/:id/confirm-buy` (`routes.ts:860`). -/
structure ConfirmBuyRequest where
  txSignature : String
  walletAddress : String
  solAmount : ℚ
  tokensReceived : ℚ
deriving DecidableEq, Repr

/-- Body of `POST /api/launches/:id/confirm-sell` (`routes.ts:948`). -/
structure ConfirmSellRequest where
  txSignature : String
  walletAddress : String
  tokenAmount : ℚ
  solReceived : ℚ
deriving DecidableEq, Repr

/-- Outcome of a confirm handler: a 400 with an error message, a 404, or
the 200 success carrying the updated launch and the verified amount used. -/
inductive Outcome where
  | badRequest (msg : String)
  | notFound
  | ok (launch : Launch) (verifiedAmount : ℚ)
deriving DecidableEq, Repr

/-- JavaScript `a || b` on a number that may be absent: `undefined`, `0`
and `-0` are falsy, anything else truthy. -/
def jsOrNum (a : Option ℚ) (b : ℚ) : ℚ :=
  match a with
  | none => b
  | some v => if v = 0 then b else v

/-- `POST /api/launches/:id/confirm-buy` handler (`routes.ts:858-939`).
`ataOf` models `getAssociatedTokenAddressSync`, `validAddr` models
`raydium.isValidSolanaAddress`, `launchOpt` the result of
`storage.getLaunchById`, and `chain` the chain read
`connection.getParsedTransaction` keyed by signature. -/
def confirmBuy (ataOf : String → String → String) (validAddr : String → Bool)
    (chain : String → Option ParsedTx) (launchOpt : Option Launch)
    (req : ConfirmBuyRequest) : Outcome :=
  if req.txSignature = "" then .badRequest "Valid transaction signature required"
  else if ¬ validAddr req.walletAddress then .badRequest "Invalid wallet address"
  else if ¬ (0 < req.solAmount) then
    .badRequest "Invalid SOL amount: must be a positive number"
  else if ¬ (0 < req.tokensReceived) then
    .badRequest "Invalid tokens received: must be a positive number"
  else
    match launchOpt with
    | none => .notFound
    | some launch =>
      if launch.status ≠ .active then
        .badRequest "Token has graduated or is not active"
      else
        let verification := verifyTradeTransaction ataOf (chain req.txSignature)
          req.walletAddress launch.mintAddress req.solAmount true
        if ¬ verification.valid then
          .badRequest "Transaction verification failed"
        else
          let currentRaised := launch.currentRaised
          let verifiedSolAmount := jsOrNum verification.solAmount req.solAmount
          let newRaised := currentRaised + verifiedSolAmount
          let fundraisingTarget := launch.fundraisingTarget
          let newStatus : LaunchStatus :=
            if newRaised ≥ fundraisingTarget then .graduated else .active
          let holders := launch.holders + 1
          let volume24h := launch.volume24h + verifiedSolAmount * 150
          .ok { launch with
                  currentRaised := newRaised
                  status := newStatus
                  holders := holders
                  volume24h := volume24h } verifiedSolAmount

/-- `POST /api/launches/:id/confirm-sell` handler (`routes.ts:946-1012`).
Unlike `confirmBuy` there is no launch-status guard, and only `volume24h`
is written back. -/
def confirmSell (ataOf : String → String → String) (validAddr : String → Bool)
    (chain : String → Option ParsedTx) (launchOpt : Option Launch)
    (req : ConfirmSellRequest) : Outcome :=
  if req.txSignature = "" then .badRequest "Valid transaction signature required"
  else if ¬ validAddr req.walletAddress then .badRequest "Invalid wallet address"
  else if ¬ (0 < req.tokenAmount) then
    .badRequest "Invalid token amount: must be a positive number"
  else if ¬ (0 < req.solReceived) then
    .badRequest "Invalid SOL received: must be a positive number"
  else
    match launchOpt with
    | none => .notFound
    | some launch =>
      let verification := verifyTradeTransaction ataOf (chain req.txSignature)
        req.walletAddress launch.mintAddress req.solReceived false
      if ¬ verification.valid then
        .badRequest "Transaction verification failed"
      else
        let verifiedSolReceived := jsOrNum verification.solAmount req.solReceived
        let volume24h := launch.volume24h + verifiedSolReceived * 150
        .ok { launch with volume24h := volume24h } verifiedSolReceived

/-- The post-verification buy application distilled from the handler
(`routes.ts:908-922`): a buy against a non-active launch is rejected and
leaves the launch unchanged; otherwise `currentRaised` grows by the
verified amount and the status graduates exactly when the new total
reaches the target. -/
def buyStep (launch : Launch) (verifiedSolAmount : ℚ) : Launch :=
  if launch.status ≠ .active then launch
  else
    let newRaised := launch.currentRaised + verifiedSolAmount
    let newStatus : LaunchStatus :=
      if newRaised ≥ launch.fundraisingTarget then .graduated else .active
    { launch with
        currentRaised := newRaised
        status := newStatus
        holders := launch.holders + 1
        volume24h := launch.volume24h + verifiedSolAmount * 150 }

/-- A sequence of verified buy applications. -/
def buySeq (launch : Launch) (amounts : List ℚ) : Launch :=
  amounts.foldl buyStep launch

/-- The launch-state invariant tying status to the fundraising target: an
active launch is strictly below target, a graduated launch has reached
it. -/
def StatusInv (launch : Launch) : Prop :=
  (launch.status = .active → launch.currentRaised < launch.fundraisingTarget) ∧
  (launch.status = .graduated → launch.fundraisingTarget ≤ launch.currentRaised)

/-- The launch update a successful confirm-sell writes back: only
`volume24h` grows, by 150 times the verified amount (`routes.ts:993-997`). -/
def sellUpdate (launch : Launch) (v : ℚ) : Launch :=
  { launch with volume24h := launch.volume24h + v * 150 }

/-- The verified SOL amount a confirm-sell uses
(`verification.solAmount || solReceivedNum`, `routes.ts:992`). -/
def sellVerifiedAmount (ataOf : String → String → String)
    (chain : String → Option ParsedTx) (launch : Launch)
    (req : ConfirmSellRequest) : ℚ :=
  jsOrNum (verifyTradeTransaction ataOf (chain req.txSignature)
    req.walletAddress launch.mintAddress req.solReceived false).solAmount req.solReceived

end Routes

namespace Demo

open Launchlab Routes

/-- A concrete deterministic associated-token-address derivation standing
in for `getAssociatedTokenAddressSync` in the concrete scenarios. -/
def demoAta (m w : String) : String := m ++ "|" ++ w

/-- A buy transaction whose chain-observed wallet SOL delta is exactly `0`:
the wallet signs, a `transferChecked` touches mint `M`, the actor's ATA
token balance rises from 0 to 100, and the lamport balances are unchanged. -/
def tx1 : ParsedTx :=
  { err := false
    accountKeys := [⟨"W", true⟩, ⟨"M|W", false⟩]
    instructions := [⟨"spl-token", some ("transferChecked", { mint := some "M" })⟩]
    innerInstructions := []
    preTokenBalances := [⟨1, some 0⟩]
    postTokenBalances := [⟨1, some 100⟩]
    preBalances := [1000000000, 0]
    postBalances := [1000000000, 0] }

/-- A buy transaction in which the wallet GAINS 500000 lamports
(0.0005 SOL), so the buy-direction signed SOL amount is negative. -/
def tx2 : ParsedTx :=
  { tx1 with preBalances := [1000000000, 0], postBalances := [1000500000, 0] }

/-- A buy transaction whose account keys do not contain the actor's ATA at
all (so the token-direction check is skipped); the wallet pays exactly
1 SOL. -/
def tx3 : ParsedTx :=
  { err := false
    accountKeys := [⟨"W", true⟩]
    instructions := [⟨"spl-token", some ("transferChecked", { mint := some "M" })⟩]
    innerInstructions := []
    preTokenBalances := []
    postTokenBalances := []
    preBalances := [2000000000]
    postBalances := [1000000000] }

/-- A sell transaction: the actor's ATA balance falls 100 → 50 and the
wallet gains exactly 1 SOL. -/
def tx5 : ParsedTx :=
  { err := false
    accountKeys := [⟨"W", true⟩, ⟨"M|W", false⟩]
    instructions := [⟨"spl-token", some ("transferChecked", { mint := some "M" })⟩]
    innerInstructions := []
    preTokenBalances := [⟨1, some 100⟩]
    postTokenBalances := [⟨1, some 50⟩]
    preBalances := [1000000000, 0]
    postBalances := [2000000000, 0] }

/-- An active launch for mint `M` with 1 SOL raised of an 85 SOL target. -/
def launch1 : Launch :=
  { mintAddress := "M", currentRaised := 1, fundraisingTarget := 85
    status := .active, holders := 0, volume24h := 0 }

/-- A graduated launch for mint `M`. -/
def launch2 : Launch :=
  { mintAddress := "M", currentRaised := 90, fundraisingTarget := 85
    status := .graduated, holders := 3, volume24h := 7 }

/-- A confirm-buy request claiming 0.001 SOL was spent. -/
def buyReq1 : ConfirmBuyRequest :=
  { txSignature := "s", walletAddress := "W", solAmount := 1/1000, tokensReceived := 1 }

/-- A confirm-buy request claiming 0.0005 SOL was spent. -/
def buyReq2 : ConfirmBuyRequest :=
  { buyReq1 with solAmount := 1/2000 }

/-- A confirm-sell request claiming 1 SOL was received for 50 tokens. -/
def sellReq1 : ConfirmSellRequest :=
  { txSignature := "s", walletAddress := "W", tokenAmount := 50, solReceived := 1 }

/-- The launch state `tx1`/`buyReq1` produce: raised grew by the claimed
0.001, not the chain-observed 0. -/
def launch1AfterTx1 : Launch :=
  { launch1 with currentRaised := 1 + 1/1000, holders := 1, volume24h := 3/20 }

/-- The launch state `tx2`/`buyReq2` produce: raised shrank by 0.0005. -/
def launch1AfterTx2 : Launch :=
  { launch1 with currentRaised := 1999/2000, holders := 1, volume24h := -(3/40) }

/-- A buy transaction whose ATA token balance does not change (0 -> 0)
while the ATA is present in the account keys: the buy-direction token check
must reject it. -/
def tx6 : ParsedTx :=
  { tx1 with postTokenBalances := [⟨1, some 0⟩] }

end Demo

open Launchlab Routes RaydiumLaunchlab Demo

/-- The demo ATA derivation on the demo mint and wallet. -/
theorem demoAta_MW : demoAta "M" "W" = "M|W" := rfl

/-- Evaluation form of `|q|` used to unfold the verifier's tolerance check
on concrete rationals. -/
theorem abs_rat_eval (q : ℚ) : |q| = if q < 0 then -q else q := by
  rcases lt_or_le q 0 with h | h
  · rw [abs_of_neg h, if_pos h]
  · rw [abs_of_nonneg h, if_neg (not_lt.mpr h)]

/-- C1 (amended): whenever the confirm-buy handler succeeds, the amount
added to `currentRaised` is `verification.solAmount || solAmount`: the
chain-observed delta whenever that delta is nonzero, and the client-claimed
request amount when the chain-observed delta is exactly zero. -/
theorem confirmBuy_applies_verified_amount
    (ataOf : String → String → String) (validAddr : String → Bool)
    (chain : String → Option ParsedTx) (launch l2 : Launch)
    (req : ConfirmBuyRequest) (a : ℚ)
    (hok : confirmBuy ataOf validAddr chain (some launch) req = .ok l2 a) :
    l2.currentRaised = launch.currentRaised + a ∧
    a = jsOrNum (verifyTradeTransaction ataOf (chain req.txSignature)
        req.walletAddress launch.mintAddress req.solAmount true).solAmount req.solAmount ∧
    ∀ s, (verifyTradeTransaction ataOf (chain req.txSignature)
        req.walletAddress launch.mintAddress req.solAmount true).solAmount = some s →
      s ≠ 0 → a = s := by
  simp only [confirmBuy] at hok
  split_ifs at hok
  all_goals
    simp only [Outcome.ok.injEq] at hok
    obtain ⟨h1, h2⟩ := hok
    subst h2
    refine ⟨by rw [← h1], rfl, ?_⟩
    intro s hs hns
    rw [hs]
    simp [jsOrNum, hns]

/-- C1 witness: a successful confirm-buy (the negative-delta scenario) at
which the characterization theorem applies. -/
theorem confirmBuy_applies_verified_amount_witness :
    confirmBuy demoAta (fun _ => true) (fun _ => some tx2) (some launch1) buyReq2 =
      .ok launch1AfterTx2 (-(1/2000)) ∧
    (launch1AfterTx2.currentRaised = launch1.currentRaised + -(1/2000) ∧
    -(1/2000) = jsOrNum (verifyTradeTransaction demoAta (some tx2)
        buyReq2.walletAddress launch1.mintAddress buyReq2.solAmount true).solAmount
        buyReq2.solAmount ∧
    ∀ s, (verifyTradeTransaction demoAta (some tx2)
        buyReq2.walletAddress launch1.mintAddress buyReq2.solAmount true).solAmount = some s →
      s ≠ 0 → -(1/2000) = s) := by
  have hok : confirmBuy demoAta (fun _ => true) (fun _ => some tx2) (some launch1) buyReq2 =
      .ok launch1AfterTx2 (-(1/2000)) := by
    simp [confirmBuy, verifyTradeTransaction, demoAta_MW, tx1, tx2, launch1, buyReq1, buyReq2,
      launch1AfterTx2, allInstructions, isTokenTransferIx, jsOrNum,
      ixVerifiesMint, directionError, tokenChangeAt, tokenBalanceAt, lamportsAt,
      actualSolAmountOf, LAMPORTS_PER_SOL, abs_rat_eval]
    norm_num
  exact ⟨hok, confirmBuy_applies_verified_amount demoAta (fun _ => true) (fun _ => some tx2)
    launch1 launch1AfterTx2 buyReq2 (-(1/2000)) hok⟩

/-- C1 counterexample: a buy confirmation that succeeds with a
chain-observed SOL delta of exactly `0` (the verifier resolves
`solAmount = 0`), yet the launch's `currentRaised` grows by the
client-claimed `0.001`, because `verification.solAmount || solAmountNum`
treats the number `0` as falsy. -/
theorem confirmBuy_zero_delta_uses_client_amount :
    (verifyTradeTransaction demoAta (some tx1) "W" "M" (1/1000) true).valid = true ∧
    (verifyTradeTransaction demoAta (some tx1) "W" "M" (1/1000) true).solAmount = some 0 ∧
    confirmBuy demoAta (fun _ => true) (fun _ => some tx1) (some launch1) buyReq1 =
      .ok launch1AfterTx1 (1/1000) ∧
    launch1AfterTx1.currentRaised = launch1.currentRaised + 1/1000 ∧
    (1/1000 : ℚ) ≠ 0 := by
  refine ⟨?_, ?_, ?_, ?_, by norm_num⟩ <;>
  · simp [confirmBuy, verifyTradeTransaction, demoAta_MW, tx1, launch1, buyReq1,
      launch1AfterTx1, allInstructions, isTokenTransferIx, jsOrNum,
      ixVerifiesMint, directionError, tokenChangeAt, tokenBalanceAt, lamportsAt,
      actualSolAmountOf, LAMPORTS_PER_SOL, abs_rat_eval]
    try norm_num

/-- A buy application against a non-active launch leaves it unchanged. -/
theorem buyStep_not_active (l : Launch) (a : ℚ) (h : l.status ≠ .active) :
    buyStep l a = l := by
  simp [buyStep, h]

/-- A buy application of a non-negative verified amount never decreases
`currentRaised`. -/
theorem buyStep_raised_mono (l : Launch) (a : ℚ) (ha : 0 ≤ a) :
    l.currentRaised ≤ (buyStep l a).currentRaised := by
  unfold buyStep
  split_ifs with h
  · exact le_refl _
  · exact le_add_of_nonneg_right ha

/-- A buy application preserves the status/target invariant. -/
theorem buyStep_statusInv (l : Launch) (a : ℚ) (hinv : StatusInv l) :
    StatusInv (buyStep l a) := by
  unfold StatusInv at hinv ⊢
  unfold buyStep
  split_ifs <;> simp_all

/-- C2 (amended): along any sequence of verified buy applications whose
resolved SOL amounts are non-negative, `currentRaised` is non-decreasing,
the status/target invariant is preserved (status is Graduated exactly upon
reaching the target), a Graduated launch absorbs the whole remaining
sequence unchanged (the transition happens at most once and never
reverts), and any further buy application against a Graduated launch is
rejected without effect.  Without the non-negativity hypothesis the
monotonicity conjunct is false on the code: see the counterexample. -/
theorem buySeq_monotone_one_way (l : Launch) (as : List ℚ)
    (hpos : ∀ a ∈ as, 0 ≤ a) (hinv : StatusInv l) :
    l.currentRaised ≤ (buySeq l as).currentRaised ∧
    StatusInv (buySeq l as) ∧
    (l.status = .graduated → buySeq l as = l) ∧
    ∀ a, (buySeq l as).status = .graduated → buyStep (buySeq l as) a = buySeq l as := by
  induction as generalizing l with
  | nil =>
    exact ⟨le_refl _, hinv, fun _ => rfl,
      fun a h => buyStep_not_active _ a (by simp [h])⟩
  | cons a t ih =>
    have ha : 0 ≤ a := hpos a (List.mem_cons_self a t)
    have ht : ∀ b ∈ t, 0 ≤ b := fun b hb => hpos b (List.mem_cons_of_mem a hb)
    have hstep := buyStep_statusInv l a hinv
    obtain ⟨m1, m2, m3, m4⟩ := ih (buyStep l a) ht hstep
    have hseq : buySeq l (a :: t) = buySeq (buyStep l a) t := rfl
    refine ⟨hseq ▸ le_trans (buyStep_raised_mono l a ha) m1, hseq ▸ m2, ?_, hseq ▸ m4⟩
    intro hg
    have hfix : buyStep l a = l := buyStep_not_active l a (by simp [hg])
    rw [hseq, hfix]
    exact (hfix ▸ m3) hg

/-- C2 witness: the invariant theorem applied to an active launch and the
buy sequence `[50, 40]` (which graduates it on the second buy). -/
theorem buySeq_monotone_one_way_witness :
    (∀ a ∈ [(50 : ℚ), 40], 0 ≤ a) ∧ StatusInv launch1 ∧
    (launch1.currentRaised ≤ (buySeq launch1 [50, 40]).currentRaised ∧
    StatusInv (buySeq launch1 [50, 40]) ∧
    (launch1.status = .graduated → buySeq launch1 [50, 40] = launch1) ∧
    ∀ a, (buySeq launch1 [50, 40]).status = .graduated →
      buyStep (buySeq launch1 [50, 40]) a = buySeq launch1 [50, 40]) := by
  have hpos : ∀ a ∈ [(50 : ℚ), 40], 0 ≤ a := by
    intro a ha
    rcases List.mem_cons.mp ha with h | h
    · rw [h]; norm_num
    · rcases List.mem_cons.mp h with h2 | h2
      · rw [h2]; norm_num
      · cases h2
  have hinv : StatusInv launch1 :=
    ⟨fun _ => by norm_num [launch1], fun h => by simp [launch1] at h⟩
  exact ⟨hpos, hinv, buySeq_monotone_one_way launch1 [50, 40] hpos hinv⟩

/-- C2 counterexample: a fully verified buy confirmation whose
chain-observed SOL amount is negative (the wallet gained 0.0005 SOL, which
is inside the `5% + 0.001` tolerance of the claimed 0.0005 spend), so the
launch's `currentRaised` strictly decreases: raised is not non-decreasing
over verified buys. -/
theorem confirmBuy_raised_decreases :
    confirmBuy demoAta (fun _ => true) (fun _ => some tx2) (some launch1) buyReq2 =
      .ok launch1AfterTx2 (-(1/2000)) ∧
    launch1AfterTx2.currentRaised < launch1.currentRaised := by
  constructor
  · simp [confirmBuy, verifyTradeTransaction, demoAta_MW, tx1, tx2, launch1, buyReq1, buyReq2,
      launch1AfterTx2, allInstructions, isTokenTransferIx, jsOrNum,
      ixVerifiesMint, directionError, tokenChangeAt, tokenBalanceAt, lamportsAt,
      actualSolAmountOf, LAMPORTS_PER_SOL, abs_rat_eval]
    norm_num
  · norm_num [launch1AfterTx2, launch1]

/-- C3: with every check before the SOL-amount comparison passing, the
verifier reports the amount-mismatch error exactly when the distance
between the chain-observed signed SOL delta and `expectedSolAmount`
exceeds `expectedSolAmount * 0.05 + 0.001`, and succeeds exactly
otherwise. -/
theorem verifyTrade_amount_mismatch_iff
    (ataOf : String → String → String) (tx : ParsedTx) (w m : String)
    (expected : ℚ) (isBuy : Bool) (wi : ℕ)
    (herr : tx.err = false)
    (hsig : tx.accountKeys.any (fun k => k.pubkey == w && k.signer) = true)
    (htr : (allInstructions tx).any isTokenTransferIx = true)
    (hmint : (allInstructions tx).any
      (fun ix => isTokenTransferIx ix && ixVerifiesMint m (ataOf m w) ix) = true)
    (hdir : directionError tx (ataOf m w) isBuy = none)
    (hwi : tx.accountKeys.findIdx? (fun k => k.pubkey == w) = some wi) :
    ((verifyTradeTransaction ataOf (some tx) w m expected isBuy).error =
        some "SOL amount mismatch" ↔
      expected * 0.05 + 0.001 < |actualSolAmountOf tx wi isBuy - expected|) ∧
    ((verifyTradeTransaction ataOf (some tx) w m expected isBuy).valid = true ↔
      |actualSolAmountOf tx wi isBuy - expected| ≤ expected * 0.05 + 0.001) := by
  simp only [verifyTradeTransaction, herr, hsig, htr, hmint, hdir, hwi,
    Bool.false_eq_true, if_false, not_true, ite_false, ite_true, not_false_iff]
  split_ifs with h
  · constructor
    · simp only [gt_iff_lt] at h
      exact ⟨fun _ => h, fun _ => rfl⟩
    · constructor
      · intro hv
        exact absurd hv (by simp)
      · intro hle
        exact absurd hle (not_le.mpr h)
  · constructor
    · constructor
      · intro hv
        exact absurd hv (by simp)
      · intro hlt
        exact absurd hlt h
    · exact ⟨fun _ => not_lt.mp h, fun _ => rfl⟩

/-- C3 witness: a transaction whose chain-observed buy delta is 1 SOL
against an expected 10 SOL fails with the amount-mismatch error (the
spec's forged-claim scenario). -/
theorem verifyTrade_amount_mismatch_iff_witness :
    tx3.err = false ∧
    tx3.accountKeys.any (fun k => k.pubkey == "W" && k.signer) = true ∧
    (allInstructions tx3).any isTokenTransferIx = true ∧
    (allInstructions tx3).any
      (fun ix => isTokenTransferIx ix && ixVerifiesMint "M" (demoAta "M" "W") ix) = true ∧
    directionError tx3 (demoAta "M" "W") true = none ∧
    tx3.accountKeys.findIdx? (fun k => k.pubkey == "W") = some 0 ∧
    (((verifyTradeTransaction demoAta (some tx3) "W" "M" 10 true).error =
        some "SOL amount mismatch" ↔
      (10 : ℚ) * 0.05 + 0.001 < |actualSolAmountOf tx3 0 true - 10|) ∧
    ((verifyTradeTransaction demoAta (some tx3) "W" "M" 10 true).valid = true ↔
      |actualSolAmountOf tx3 0 true - 10| ≤ (10 : ℚ) * 0.05 + 0.001)) ∧
    (verifyTradeTransaction demoAta (some tx3) "W" "M" 10 true).valid = false ∧
    (verifyTradeTransaction demoAta (some tx3) "W" "M" 10 true).error =
      some "SOL amount mismatch" := by
  refine ⟨rfl, by decide, by decide, by decide, by decide, by decide,
    verifyTrade_amount_mismatch_iff demoAta tx3 "W" "M" 10 true 0 rfl
      (by decide) (by decide) (by decide) (by decide) (by decide), ?_, ?_⟩ <;>
  · simp [verifyTradeTransaction, demoAta_MW, tx3, allInstructions, isTokenTransferIx,
      ixVerifiesMint, directionError, tokenChangeAt, tokenBalanceAt, lamportsAt,
      actualSolAmountOf, LAMPORTS_PER_SOL, abs_rat_eval]
    try norm_num

/-- C4 (amended): when the signer and mint checks pass AND the actor's
associated token account appears among the transaction's account keys, a
token-balance delta that fails the direction's sign requirement
(non-positive for a buy, non-negative for a sell) makes the verifier fail
with the wrong-direction error.  When the ATA is absent from the account
keys the direction check is skipped entirely: see the counterexample. -/
theorem verifyTrade_wrong_direction
    (ataOf : String → String → String) (tx : ParsedTx) (w m : String)
    (expected : ℚ) (isBuy : Bool) (ataIdx : ℕ)
    (herr : tx.err = false)
    (hsig : tx.accountKeys.any (fun k => k.pubkey == w && k.signer) = true)
    (htr : (allInstructions tx).any isTokenTransferIx = true)
    (hmint : (allInstructions tx).any
      (fun ix => isTokenTransferIx ix && ixVerifiesMint m (ataOf m w) ix) = true)
    (hata : tx.accountKeys.findIdx? (fun k => k.pubkey == ataOf m w) = some ataIdx)
    (hbad : (isBuy = true ∧ tokenChangeAt tx ataIdx ≤ 0) ∨
            (isBuy = false ∧ 0 ≤ tokenChangeAt tx ataIdx)) :
    (verifyTradeTransaction ataOf (some tx) w m expected isBuy).valid = false ∧
    (verifyTradeTransaction ataOf (some tx) w m expected isBuy).error =
      some (if isBuy
        then "Expected token balance increase for buy, but got decrease or no change"
        else "Expected token balance decrease for sell, but got increase or no change") := by
  rcases hbad with ⟨hb, hc⟩ | ⟨hb, hc⟩ <;> subst hb <;>
    simp [verifyTradeTransaction, herr, hsig, htr, hmint, directionError, hata, hc]

/-- C4 witness: a buy whose ATA (present in the account keys) shows no
token-balance increase is rejected with the wrong-direction error. -/
theorem verifyTrade_wrong_direction_witness :
    tx6.err = false ∧
    tx6.accountKeys.any (fun k => k.pubkey == "W" && k.signer) = true ∧
    (allInstructions tx6).any isTokenTransferIx = true ∧
    (allInstructions tx6).any
      (fun ix => isTokenTransferIx ix && ixVerifiesMint "M" (demoAta "M" "W") ix) = true ∧
    tx6.accountKeys.findIdx? (fun k => k.pubkey == demoAta "M" "W") = some 1 ∧
    tokenChangeAt tx6 1 ≤ 0 ∧
    (verifyTradeTransaction demoAta (some tx6) "W" "M" 1 true).valid = false ∧
    (verifyTradeTransaction demoAta (some tx6) "W" "M" 1 true).error =
      some (if true
        then "Expected token balance increase for buy, but got decrease or no change"
        else "Expected token balance decrease for sell, but got increase or no change") := by
  have hc : tokenChangeAt tx6 1 ≤ 0 := by
    norm_num [tokenChangeAt, tokenBalanceAt, tx6, tx1]
  have h := verifyTrade_wrong_direction demoAta tx6 "W" "M" 1 true 1 rfl
    (by decide) (by decide) (by decide) (by decide) (Or.inl ⟨rfl, hc⟩)
  exact ⟨rfl, by decide, by decide, by decide, by decide, hc, h.1, h.2⟩

/-- C4 counterexample: a buy transaction that passes the signer and mint
checks but whose account keys do not contain the actor's associated token
account at all (its token balance tables are empty, so the actor's token
delta is zero, which does not match the buy direction); the verifier skips
the direction check and accepts the transaction. -/
theorem verifyTrade_direction_skipped_when_ata_absent :
    (verifyTradeTransaction demoAta (some tx3) "W" "M" 1 true).valid = true ∧
    (verifyTradeTransaction demoAta (some tx3) "W" "M" 1 true).error = none ∧
    tx3.accountKeys.findIdx? (fun k => k.pubkey == demoAta "M" "W") = none ∧
    tx3.preTokenBalances = [] ∧ tx3.postTokenBalances = [] ∧
    tokenBalanceAt tx3.postTokenBalances 0 - tokenBalanceAt tx3.preTokenBalances 0 = 0 := by
  refine ⟨?_, ?_, by decide, rfl, rfl, by norm_num [tokenBalanceAt, tx3]⟩ <;>
  · simp [verifyTradeTransaction, demoAta_MW, tx3, allInstructions, isTokenTransferIx,
      ixVerifiesMint, directionError, tokenChangeAt, tokenBalanceAt, lamportsAt,
      actualSolAmountOf, LAMPORTS_PER_SOL, abs_rat_eval]
    try norm_num

/-- C9: a successful sell confirmation changes only `volume24h` (it grows
by 150 times the verified SOL amount); `currentRaised`, `status`, and every
other field of the launch are unchanged. -/
theorem confirmSell_frame
    (ataOf : String → String → String) (validAddr : String → Bool)
    (chain : String → Option ParsedTx) (launch l2 : Launch)
    (req : ConfirmSellRequest) (s : ℚ)
    (hok : confirmSell ataOf validAddr chain (some launch) req = .ok l2 s) :
    l2.mintAddress = launch.mintAddress ∧
    l2.currentRaised = launch.currentRaised ∧
    l2.fundraisingTarget = launch.fundraisingTarget ∧
    l2.status = launch.status ∧
    l2.holders = launch.holders ∧
    l2.volume24h = launch.volume24h + s * 150 := by
  simp only [confirmSell] at hok
  split_ifs at hok
  all_goals
    simp only [Outcome.ok.injEq] at hok
    obtain ⟨h1, h2⟩ := hok
    subst h2
    rw [← h1]
    exact ⟨rfl, rfl, rfl, rfl, rfl, rfl⟩

/-- C9 witness: the frame theorem applied to a successful sell against the
graduated demo launch. -/
theorem confirmSell_frame_witness :
    confirmSell demoAta (fun _ => true) (fun _ => some tx5) (some launch2) sellReq1 =
      .ok { launch2 with volume24h := 157 } 1 ∧
    (({ launch2 with volume24h := 157 } : Launch).mintAddress = launch2.mintAddress ∧
    ({ launch2 with volume24h := 157 } : Launch).currentRaised = launch2.currentRaised ∧
    ({ launch2 with volume24h := 157 } : Launch).fundraisingTarget = launch2.fundraisingTarget ∧
    ({ launch2 with volume24h := 157 } : Launch).status = launch2.status ∧
    ({ launch2 with volume24h := 157 } : Launch).holders = launch2.holders ∧
    ({ launch2 with volume24h := 157 } : Launch).volume24h = launch2.volume24h + 1 * 150) := by
  have hok : confirmSell demoAta (fun _ => true) (fun _ => some tx5) (some launch2) sellReq1 =
      .ok { launch2 with volume24h := 157 } 1 := by
    simp [confirmSell, verifyTradeTransaction, demoAta_MW, tx5, launch2, sellReq1,
      allInstructions, isTokenTransferIx, jsOrNum,
      ixVerifiesMint, directionError, tokenChangeAt, tokenBalanceAt, lamportsAt,
      actualSolAmountOf, LAMPORTS_PER_SOL, abs_rat_eval]
    norm_num
  exact ⟨hok, confirmSell_frame demoAta (fun _ => true) (fun _ => some tx5)
    launch2 _ sellReq1 1 hok⟩

/-- C10: confirm-sell has no launch-status guard — for a non-active
(graduated or failed) launch it still runs on-chain verification, and on a
valid verification applies the volume update and succeeds (on an invalid
one it fails with the verification error) — while confirm-buy rejects any
non-active launch before any verification, whatever the chain contains. -/
theorem confirmSell_no_status_guard_confirmBuy_requires_active
    (ataOf : String → String → String) (validAddr : String → Bool)
    (chain : String → Option ParsedTx) (launch : Launch)
    (sreq : ConfirmSellRequest) (breq : ConfirmBuyRequest)
    (hs1 : sreq.txSignature ≠ "") (hs2 : validAddr sreq.walletAddress = true)
    (hs3 : 0 < sreq.tokenAmount) (hs4 : 0 < sreq.solReceived)
    (hb1 : breq.txSignature ≠ "") (hb2 : validAddr breq.walletAddress = true)
    (hb3 : 0 < breq.solAmount) (hb4 : 0 < breq.tokensReceived)
    (hstatus : launch.status ≠ .active) :
    ((verifyTradeTransaction ataOf (chain sreq.txSignature) sreq.walletAddress
        launch.mintAddress sreq.solReceived false).valid = true →
      confirmSell ataOf validAddr chain (some launch) sreq =
        .ok (sellUpdate launch (sellVerifiedAmount ataOf chain launch sreq))
          (sellVerifiedAmount ataOf chain launch sreq)) ∧
    ((verifyTradeTransaction ataOf (chain sreq.txSignature) sreq.walletAddress
        launch.mintAddress sreq.solReceived false).valid = false →
      confirmSell ataOf validAddr chain (some launch) sreq =
        .badRequest "Transaction verification failed") ∧
    confirmBuy ataOf validAddr chain (some launch) breq =
      .badRequest "Token has graduated or is not active" := by
  refine ⟨?_, ?_, ?_⟩
  · intro hv
    simp [confirmSell, sellUpdate, sellVerifiedAmount, hs1, hs2, hs3, hs4, hv]
  · intro hv
    simp [confirmSell, hs1, hs2, hs3, hs4, hv]
  · simp [confirmBuy, hb1, hb2, hb3, hb4, hstatus]

/-- C10 witness: the theorem applied to the graduated demo launch, the
demo sell transaction and a dummy buy request. -/
theorem confirmSell_no_status_guard_witness :
    sellReq1.txSignature ≠ "" ∧ (0 : ℚ) < sellReq1.tokenAmount ∧
    (0 : ℚ) < sellReq1.solReceived ∧ buyReq1.txSignature ≠ "" ∧
    (0 : ℚ) < buyReq1.solAmount ∧ (0 : ℚ) < buyReq1.tokensReceived ∧
    launch2.status ≠ .active ∧
    (((verifyTradeTransaction demoAta (some tx5) sellReq1.walletAddress
        launch2.mintAddress sellReq1.solReceived false).valid = true →
      confirmSell demoAta (fun _ => true) (fun _ => some tx5) (some launch2) sellReq1 =
        .ok (sellUpdate launch2
              (sellVerifiedAmount demoAta (fun _ => some tx5) launch2 sellReq1))
          (sellVerifiedAmount demoAta (fun _ => some tx5) launch2 sellReq1)) ∧
    ((verifyTradeTransaction demoAta (some tx5) sellReq1.walletAddress
        launch2.mintAddress sellReq1.solReceived false).valid = false →
      confirmSell demoAta (fun _ => true) (fun _ => some tx5) (some launch2) sellReq1 =
        .badRequest "Transaction verification failed") ∧
    confirmBuy demoAta (fun _ => true) (fun _ => some tx5) (some launch2) buyReq1 =
      .badRequest "Token has graduated or is not active") := by
  refine ⟨by decide, by norm_num [sellReq1], by norm_num [sellReq1], by decide,
    by norm_num [buyReq1], by norm_num [buyReq1], by decide, ?_⟩
  exact confirmSell_no_status_guard_confirmBuy_requires_active demoAta (fun _ => true)
    (fun _ => some tx5) launch2 sellReq1 buyReq1 (by decide) rfl
    (by norm_num [sellReq1]) (by norm_num [sellReq1]) (by decide) rfl
    (by norm_num [buyReq1]) (by norm_num [buyReq1]) (by decide)

/-- C6: for positive supply and target, `getCurrentPrice` computes exactly
the spec's three closed forms in `p = currentRaised / target` and
`initialPrice = target / (0.8 * totalSupply)`. -/
theorem getCurrentPrice_matches_spec (R T Rt : ℝ) (hT : 0 < T) (hRt : 0 < Rt) :
    getCurrentPrice R .linear T Rt = Rt / (0.8 * T) * (1 + 0.5 * (R / Rt)) ∧
    getCurrentPrice R .exponential T Rt = Rt / (0.8 * T) * (1 + 2) ^ (R / Rt) ∧
    getCurrentPrice R .logarithmic T Rt =
      Rt / (0.8 * T) * (1 + 10 * Real.log (1 + R / Rt)) := by
  refine ⟨?_, ?_, ?_⟩ <;> simp only [getCurrentPrice] <;> ring_nf

/-- C6 witness: the three formulas at the platform defaults with 42 SOL
raised. -/
theorem getCurrentPrice_matches_spec_witness :
    (0 : ℝ) < 1000000000 ∧ (0 : ℝ) < 85 ∧
    (getCurrentPrice 42 .linear 1000000000 85 =
      85 / (0.8 * 1000000000) * (1 + 0.5 * (42 / 85)) ∧
    getCurrentPrice 42 .exponential 1000000000 85 =
      85 / (0.8 * 1000000000) * (1 + 2) ^ ((42 : ℝ) / 85) ∧
    getCurrentPrice 42 .logarithmic 1000000000 85 =
      85 / (0.8 * 1000000000) * (1 + 10 * Real.log (1 + 42 / 85))) :=
  ⟨by norm_num, by norm_num,
    getCurrentPrice_matches_spec 42 1000000000 85 (by norm_num) (by norm_num)⟩

/-- C7: for each curve type and positive supply and target, the
instantaneous price is monotone non-decreasing in progress on `[0, 2]`. -/
theorem getCurrentPrice_monotone
    (c : CurveType) (T Rt p1 p2 : ℝ) (hT : 0 < T) (hRt : 0 < Rt)
    (h0 : 0 ≤ p1) (h12 : p1 < p2) (h2 : p2 ≤ 2) :
    getCurrentPrice (p1 * Rt) c T Rt ≤ getCurrentPrice (p2 * Rt) c T Rt := by
  have hRt0 : Rt ≠ 0 := ne_of_gt hRt
  have hp1 : p1 * Rt / Rt = p1 := mul_div_cancel_right₀ p1 hRt0
  have hp2 : p2 * Rt / Rt = p2 := mul_div_cancel_right₀ p2 hRt0
  have hip : 0 < Rt / (T * 0.8) := div_pos hRt (by positivity)
  cases c with
  | linear =>
    simp only [getCurrentPrice, hp1, hp2]
    have h := mul_le_mul_of_nonneg_left h12.le
      (by positivity : (0 : ℝ) ≤ Rt / (T * 0.8) * 0.5)
    linarith
  | exponential =>
    simp only [getCurrentPrice, hp1, hp2]
    refine mul_le_mul_of_nonneg_left ?_ hip.le
    exact (Real.rpow_le_rpow_left_iff (by norm_num)).mpr h12.le
  | logarithmic =>
    simp only [getCurrentPrice, hp1, hp2]
    refine mul_le_mul_of_nonneg_left ?_ hip.le
    have hlog := Real.log_le_log (by linarith : (0 : ℝ) < 1 + p1)
      (by linarith : 1 + p1 ≤ 1 + p2)
    linarith

/-- C7 witness: the logarithmic curve at the platform defaults between
progress 0 and 1. -/
theorem getCurrentPrice_monotone_witness :
    (0 : ℝ) < 1000000000 ∧ (0 : ℝ) < 85 ∧ (0 : ℝ) ≤ 0 ∧ (0 : ℝ) < 1 ∧ (1 : ℝ) ≤ 2 ∧
    getCurrentPrice (0 * 85) .logarithmic 1000000000 85 ≤
      getCurrentPrice (1 * 85) .logarithmic 1000000000 85 :=
  ⟨by norm_num, by norm_num, le_refl 0, by norm_num, by norm_num,
    getCurrentPrice_monotone .logarithmic 1000000000 85 0 1 (by norm_num) (by norm_num)
      (le_refl 0) (by norm_num) (by norm_num)⟩

/-- The clamp-then-fee-then-floor tail shared by every sell branch: the
net output is in `[0, currentRaised]` for any gross value. -/
theorem sellClamp_bounds (b R : ℝ) (hR : 0 ≤ R) :
    0 ≤ max (min b R - min b R * PLATFORM_FEE_RATE) 0 ∧
    max (min b R - min b R * PLATFORM_FEE_RATE) 0 ≤ R := by
  refine ⟨le_max_right _ _, max_le ?_ hR⟩
  have h1 : min b R ≤ R := min_le_right b R
  simp only [PLATFORM_FEE_RATE]
  linarith

/-- C8: every sell quote's SOL output lies in `[0, currentRaised]`: the
gross proceeds are clamped to `currentRaised` before the fee and the net
result is floored at 0, for every curve type. -/
theorem getSellQuote_amountOut_bounds (Q R T Rt : ℝ) (c : CurveType)
    (hQ : 0 < Q) (hT : 0 < T) (hRt : 0 < Rt) (hR : 0 ≤ R) :
    0 ≤ (getSellQuote Q R c T Rt).amountOut ∧
    (getSellQuote Q R c T Rt).amountOut ≤ R := by
  cases c <;>
  · simp only [getSellQuote, calculateSellPrice]
    exact sellClamp_bounds _ R hR

/-- C8 witness: a 1-token sell on the linear curve with 1 SOL raised. -/
theorem getSellQuote_amountOut_bounds_witness :
    (0 : ℝ) < 1 ∧ (0 : ℝ) < 1000000000 ∧ (0 : ℝ) < 85 ∧ (0 : ℝ) ≤ 1 ∧
    (0 ≤ (getSellQuote 1 1 .linear 1000000000 85).amountOut ∧
    (getSellQuote 1 1 .linear 1000000000 85).amountOut ≤ 1) :=
  ⟨by norm_num, by norm_num, by norm_num, by norm_num,
    getSellQuote_amountOut_bounds 1 1 1000000000 85 .linear (by norm_num) (by norm_num)
      (by norm_num) (by norm_num)⟩

/-- C5: the concrete linear-curve scenario — `getBuyQuote(1.0)` with
supply 1e9, target 85 and nothing raised returns fee `0.0025`, and an
`amountOut` within 0.1% of the closed-form trapezoid value
`netS / ((priceStart + priceEnd) / 2)` with `priceStart = 85 / (0.8e9)`
and `priceEnd = priceStart * (1 + 0.5 * (netS / 85))` (the only deviation
is the final `Math.floor`, far below the 0.1% band). -/
theorem getBuyQuote_linear_concrete :
    (getBuyQuote 1 0 .linear 1000000000 85).fee = 0.0025 ∧
    |(getBuyQuote 1 0 .linear 1000000000 85).amountOut -
      0.9975 / ((85 / (0.8 * 1000000000) +
        85 / (0.8 * 1000000000) * (1 + 0.5 * (0.9975 / 85))) / 2)| ≤
    0.001 * (0.9975 / ((85 / (0.8 * 1000000000) +
        85 / (0.8 * 1000000000) * (1 + 0.5 * (0.9975 / 85))) / 2)) := by
  constructor
  · simp only [getBuyQuote, calculateBuyPrice, PLATFORM_FEE_RATE]
    norm_num
  · simp only [getBuyQuote, calculateBuyPrice, PLATFORM_FEE_RATE]
    norm_num [min_eq_left]
    rw [abs_of_nonneg (by norm_num : (0 : ℝ) ≤ 59972 / 136399)]
    norm_num
